import Mathlib

/-!
Shallow embedding of the fixed-timestep motion-and-collision core of the
Mario-siblings game (src/src/main.rs, a Bevy 0.9 app).

Coordinates and velocities are modelled over the rationals; all constants of
the program are exactly representable and the arithmetic performed on them in
the claims under study stays exact.

The three core systems are embedded as pure state transformers, executed each
tick in the declared order: move_mario_input (before apply_velocity),
apply_velocity (before check_for_collisions), check_for_collisions.
The move_pacman system reads input and computes candidate paddle coordinates
but its two assignment lines are commented out in the source, so it performs
no state change and is not modelled.
-/

/-- Two-dimensional vector over the rationals (bevy Vec2 / truncated Vec3). -/
structure Vec2 where
  x : ℚ
  y : ℚ
deriving DecidableEq

/-- TIME_STEP = 1.0 / 60.0 -/
def TIME_STEP : ℚ := 1 / 60

/-- BLOCK_SIZE = 20.0 -/
def BLOCK_SIZE : ℚ := 20

/-- MARIO_SIZE = (BLOCK_SIZE*2, BLOCK_SIZE*3) (z component dropped). -/
def MARIO_SIZE : Vec2 := ⟨BLOCK_SIZE * 2, BLOCK_SIZE * 3⟩

/-- MARIO_XSPEED = 300.0 -/
def MARIO_XSPEED : ℚ := 300

/-- JUMP_SPEED = 800.0 -/
def JUMP_SPEED : ℚ := 800

/-- GRAVITY = 50.0 -/
def GRAVITY : ℚ := 50

/-- MARIO_STARTING_POSITION = (0.0, -50.0) (z component dropped). -/
def MARIO_STARTING_POSITION : Vec2 := ⟨0, -50⟩

/-- WALL_THICKNESS = 20.0 -/
def WALL_THICKNESS : ℚ := 20

/-- LEFT_WALL = -450.0 -/
def LEFT_WALL : ℚ := -450

/-- RIGHT_WALL = 450.0 -/
def RIGHT_WALL : ℚ := 450

/-- BOTTOM_WALL = BLOCK_SIZE * -12.0 -/
def BOTTOM_WALL : ℚ := BLOCK_SIZE * (-12)

/-- TOP_WALL = 300.0 -/
def TOP_WALL : ℚ := 300

/-- WALL1 = (BLOCK_SIZE * 10.0, BLOCK_SIZE * -6.0) -/
def WALL1 : Vec2 := ⟨BLOCK_SIZE * 10, BLOCK_SIZE * (-6)⟩

/-- WALL2 = (BLOCK_SIZE * -10.0, BLOCK_SIZE * -6.0) -/
def WALL2 : Vec2 := ⟨BLOCK_SIZE * (-10), BLOCK_SIZE * (-6)⟩

/-- WALL3 = (0.0, 0.0) -/
def WALL3 : Vec2 := ⟨0, 0⟩

/-- WALL4 = (BLOCK_SIZE * 14.0, BLOCK_SIZE * -1.0) -/
def WALL4 : Vec2 := ⟨BLOCK_SIZE * 14, BLOCK_SIZE * (-1)⟩

/-- WALL5 = (BLOCK_SIZE * -14.0, BLOCK_SIZE * -1.0) -/
def WALL5 : Vec2 := ⟨BLOCK_SIZE * (-14), BLOCK_SIZE * (-1)⟩

/-- WALL6 = (BLOCK_SIZE * 9.0, BLOCK_SIZE * 6.0) -/
def WALL6 : Vec2 := ⟨BLOCK_SIZE * 9, BLOCK_SIZE * 6⟩

/-- WALL7 = (BLOCK_SIZE * -9.0, BLOCK_SIZE * 6.0) -/
def WALL7 : Vec2 := ⟨BLOCK_SIZE * (-9), BLOCK_SIZE * 6⟩

/-- BRICK_SIZE = (10.0, 10.0) -/
def BRICK_SIZE : Vec2 := ⟨10, 10⟩

/-- GAP_BETWEEN_PADDLE_AND_BRICKS = 270.0 -/
def GAP_BETWEEN_PADDLE_AND_BRICKS : ℚ := 270

/-- GAP_BETWEEN_BRICKS = 5.0 -/
def GAP_BETWEEN_BRICKS : ℚ := 5

/-- GAP_BETWEEN_BRICKS_AND_CEILING = 20.0 -/
def GAP_BETWEEN_BRICKS_AND_CEILING : ℚ := 20

/-- GAP_BETWEEN_BRICKS_AND_SIDES = 20.0 -/
def GAP_BETWEEN_BRICKS_AND_SIDES : ℚ := 20

/-- The Collision enum of bevy::sprite::collide_aabb. -/
inductive Collision where
  | Left
  | Right
  | Top
  | Bottom
  | Inside
deriving DecidableEq

/-- Penetration-depth comparison `y_depth.abs() < x_depth.abs()` where a depth
of `none` stands for the `-f32::INFINITY` placeholder (whose absolute value
compares greater than every finite depth, and not less than itself). -/
def absLtDepth : Option ℚ → Option ℚ → Bool
  | some a, some b => decide (|a| < |b|)
  | some _, none => true
  | none, _ => false

/-- bevy 0.9 `sprite::collide_aabb::collide`: axis-aligned box overlap test
classifying the struck side of B by the axis of minimum penetration depth. -/
def collide (aPos : Vec2) (aSize : Vec2) (bPos : Vec2) (bSize : Vec2) :
    Option Collision :=
  let aMin : Vec2 := ⟨aPos.x - aSize.x / 2, aPos.y - aSize.y / 2⟩
  let aMax : Vec2 := ⟨aPos.x + aSize.x / 2, aPos.y + aSize.y / 2⟩
  let bMin : Vec2 := ⟨bPos.x - bSize.x / 2, bPos.y - bSize.y / 2⟩
  let bMax : Vec2 := ⟨bPos.x + bSize.x / 2, bPos.y + bSize.y / 2⟩
  if aMin.x < bMax.x ∧ aMax.x > bMin.x ∧ aMin.y < bMax.y ∧ aMax.y > bMin.y then
    let xColl : Collision × Option ℚ :=
      if aMin.x < bMin.x ∧ aMax.x > bMin.x ∧ aMax.x < bMax.x then
        (Collision.Left, some (bMin.x - aMax.x))
      else if aMin.x > bMin.x ∧ aMin.x < bMax.x ∧ aMax.x > bMax.x then
        (Collision.Right, some (aMin.x - bMax.x))
      else
        (Collision.Inside, none)
    let yColl : Collision × Option ℚ :=
      if aMin.y < bMin.y ∧ aMax.y > bMin.y ∧ aMax.y < bMax.y then
        (Collision.Bottom, some (bMin.y - aMax.y))
      else if aMin.y > bMin.y ∧ aMin.y < bMax.y ∧ aMax.y > bMax.y then
        (Collision.Top, some (aMin.y - bMax.y))
      else
        (Collision.Inside, none)
    if absLtDepth yColl.2 xColl.2 then some yColl.1 else some xColl.1
  else
    none

/-- Tag distinguishing persistent walls (no Brick component) from bricks. -/
inductive ColliderKind where
  | Wall
  | Brick
deriving DecidableEq

/-- A static collider entity: its entity id, transform translation (truncated),
transform scale (truncated), and whether it carries the Brick component. -/
structure Collider where
  id : ℕ
  pos : Vec2
  size : Vec2
  kind : ColliderKind
deriving DecidableEq

/-- The single dynamic actor: transform translation and scale (truncated),
the Velocity component, and the IsJumping component. -/
structure MarioState where
  pos : Vec2
  size : Vec2
  vel : Vec2
  isjumping : Bool
deriving DecidableEq

/-- Keyboard state read level-triggered each tick (`pressed` queries). -/
structure Input where
  up : Bool
  down : Bool
  left : Bool
  right : Bool
deriving DecidableEq

/-- Game state carried across ticks: the actor, the live colliders (spawn
order), the Scoreboard score, and the number of CollisionEvent signals sent
during the most recent tick. -/
structure World where
  actor : MarioState
  colliders : List Collider
  score : ℕ
  events : ℕ
deriving DecidableEq

/-- move_mario_input: jump impulse (Up held and not jumping sets
velocity.y = JUMP_SPEED and the flag), then the horizontal mapping
(Left, else Right, else zero). -/
def move_mario_input (inp : Input) (m : MarioState) : MarioState :=
  let m1 :=
    if inp.up then
      if m.isjumping = false then
        { m with vel := ⟨m.vel.x, JUMP_SPEED⟩, isjumping := true }
      else m
    else m
  if inp.left then
    { m1 with vel := ⟨-MARIO_XSPEED, m1.vel.y⟩ }
  else if inp.right then
    { m1 with vel := ⟨MARIO_XSPEED, m1.vel.y⟩ }
  else
    { m1 with vel := ⟨0, m1.vel.y⟩ }

/-- apply_velocity: integrate position by velocity × TIME_STEP, then the two
sequential horizontal wraparound checks on the updated x, then subtract
GRAVITY (a flat per-tick decrement, not scaled by TIME_STEP) from velocity.y. -/
def apply_velocity (m : MarioState) : MarioState :=
  let x1 := m.pos.x + m.vel.x * TIME_STEP
  let y1 := m.pos.y + m.vel.y * TIME_STEP
  let x2 := if x1 > BLOCK_SIZE * 16 then BLOCK_SIZE * (-16) else x1
  let x3 := if x2 < BLOCK_SIZE * (-16) then BLOCK_SIZE * 16 else x2
  { m with pos := ⟨x3, y1⟩, vel := ⟨m.vel.x, m.vel.y - GRAVITY⟩ }

/-- The wall-reflection block of check_for_collisions: compute reflect_x and
reflect_y from the classified side and the velocity signs (the Bottom arm
zeroes velocity.y directly in its match arm), then apply the two reflections;
the reflect_y branch also clears isjumping. -/
def resolve_wall_collision (col : Collision) (m : MarioState) : MarioState :=
  let reflect_x : Bool :=
    match col with
    | Collision.Left => decide (m.vel.x > 0)
    | Collision.Right => decide (m.vel.x < 0)
    | _ => false
  let reflect_y : Bool :=
    match col with
    | Collision.Top => decide (m.vel.y < 0)
    | _ => false
  let m1 :=
    match col with
    | Collision.Bottom =>
        if m.vel.y > 0 then { m with vel := ⟨m.vel.x, 0⟩ } else m
    | _ => m
  let m2 := if reflect_x then { m1 with vel := ⟨0, m1.vel.y⟩ } else m1
  if reflect_y then { m2 with vel := ⟨m2.vel.x, 0⟩, isjumping := false } else m2

/-- Effect of processing one collider in the check_for_collisions loop. -/
structure HitResult where
  actor : MarioState
  score : ℕ
  events : ℕ
  keep : Bool
deriving DecidableEq

/-- One iteration of the check_for_collisions loop body: run collide on the
actor against the collider; on overlap send a CollisionEvent, then either
despawn the brick and bump the score, or run the wall reflection block. -/
def process_collider (m : MarioState) (s e : ℕ) (c : Collider) : HitResult :=
  match collide m.pos m.size c.pos c.size with
  | none => ⟨m, s, e, true⟩
  | some col =>
    match c.kind with
    | ColliderKind.Brick => ⟨m, s + 1, e + 1, false⟩
    | ColliderKind.Wall => ⟨resolve_wall_collision col m, s, e + 1, true⟩

/-- Result of one full pass of the check_for_collisions loop. -/
structure PassResult where
  actor : MarioState
  score : ℕ
  events : ℕ
  kept : List Collider
deriving DecidableEq

/-- The check_for_collisions loop over the collider query snapshot, threading
actor state, score and event count left to right; despawns (deferred in bevy)
drop the collider from the registry for the following ticks. -/
def collision_pass (m : MarioState) (s e : ℕ) : List Collider → PassResult
  | [] => ⟨m, s, e, []⟩
  | c :: rest =>
    let h := process_collider m s e c
    let r := collision_pass h.actor h.score h.events rest
    ⟨r.actor, r.score, r.events, if h.keep then c :: r.kept else r.kept⟩

/-- check_for_collisions as a whole-world transformer (the event count is the
number of CollisionEvent signals sent this tick). -/
def check_for_collisions (w : World) : World :=
  let r := collision_pass w.actor w.score 0 w.colliders
  ⟨r.actor, r.kept, r.score, r.events⟩

/-- One fixed tick in the declared system order: move_mario_input before
apply_velocity before check_for_collisions (move_pacman changes no state). -/
def tick (inp : Input) (w : World) : World :=
  check_for_collisions
    ⟨apply_velocity (move_mario_input inp w.actor), w.colliders, w.score, 0⟩

/-- Run a sequence of fixed ticks. -/
def run_ticks : List Input → World → World
  | [], w => w
  | inp :: rest, w => run_ticks rest (tick inp w)

/-- The WallLocation enum of the source. -/
inductive WallLocation where
  | Left
  | Right
  | Bottom
  | Top
  | Locate1
  | Locate2
  | Locate3
  | Locate4
  | Locate5
  | Locate6
  | Locate7
deriving DecidableEq

/-- WallLocation::position. -/
def WallLocation.position : WallLocation → Vec2
  | WallLocation.Left => ⟨LEFT_WALL, 0⟩
  | WallLocation.Right => ⟨RIGHT_WALL, 0⟩
  | WallLocation.Bottom => ⟨0, BOTTOM_WALL⟩
  | WallLocation.Top => ⟨0, TOP_WALL⟩
  | WallLocation.Locate1 => WALL1
  | WallLocation.Locate2 => WALL2
  | WallLocation.Locate3 => WALL3
  | WallLocation.Locate4 => WALL4
  | WallLocation.Locate5 => WALL5
  | WallLocation.Locate6 => WALL6
  | WallLocation.Locate7 => WALL7

/-- WallLocation::size. -/
def WallLocation.size : WallLocation → Vec2
  | WallLocation.Left | WallLocation.Right =>
      ⟨WALL_THICKNESS, (TOP_WALL - BOTTOM_WALL) + WALL_THICKNESS⟩
  | WallLocation.Bottom | WallLocation.Top =>
      ⟨BLOCK_SIZE * 32, WALL_THICKNESS⟩
  | WallLocation.Locate1 | WallLocation.Locate2 =>
      ⟨BLOCK_SIZE * 12, BLOCK_SIZE⟩
  | WallLocation.Locate3 =>
      ⟨BLOCK_SIZE * 16, BLOCK_SIZE⟩
  | WallLocation.Locate4 | WallLocation.Locate5 =>
      ⟨BLOCK_SIZE * 4, BLOCK_SIZE⟩
  | WallLocation.Locate6 | WallLocation.Locate7 =>
      ⟨BLOCK_SIZE * 14, BLOCK_SIZE⟩

/-- WallBundle::new(location) spawned with entity id `i`: a Collider without
the Brick component at the location's position and scale. -/
def wall_bundle (i : ℕ) (loc : WallLocation) : Collider :=
  ⟨i, loc.position, loc.size, ColliderKind.Wall⟩

/-- paddle_y = -500.0 (the commented alternative is not compiled in). -/
def paddle_y : ℚ := -500

/-- The paddle entity spawned in setup: it carries Collider (and no Brick),
translation (0, paddle_y), scale MARIO_SIZE. -/
def paddle_collider : Collider :=
  ⟨0, ⟨0, paddle_y⟩, MARIO_SIZE, ColliderKind.Wall⟩

/-- total_width_of_bricks in setup. -/
def total_width_of_bricks : ℚ :=
  (RIGHT_WALL - LEFT_WALL) - 2 * GAP_BETWEEN_BRICKS_AND_SIDES

/-- bottom_edge_of_bricks in setup. -/
def bottom_edge_of_bricks : ℚ := paddle_y + GAP_BETWEEN_PADDLE_AND_BRICKS

/-- total_height_of_bricks in setup. -/
def total_height_of_bricks : ℚ :=
  TOP_WALL - bottom_edge_of_bricks - GAP_BETWEEN_BRICKS_AND_CEILING

/-- n_columns in setup (floor division cast to usize). -/
def n_columns : ℕ :=
  (total_width_of_bricks / (BRICK_SIZE.x + GAP_BETWEEN_BRICKS)).floor.toNat

/-- n_rows in setup (floor division cast to usize). -/
def n_rows : ℕ :=
  (total_height_of_bricks / (BRICK_SIZE.y + GAP_BETWEEN_BRICKS)).floor.toNat

/-- n_vertical_gaps = n_columns - 1. -/
def n_vertical_gaps : ℕ := n_columns - 1

/-- center_of_bricks in setup. -/
def center_of_bricks : ℚ := (LEFT_WALL + RIGHT_WALL) / 2

/-- left_edge_of_bricks in setup. -/
def left_edge_of_bricks : ℚ :=
  center_of_bricks - ((n_columns : ℚ) / 2 * BRICK_SIZE.x)
    - (n_vertical_gaps : ℚ) / 2 * GAP_BETWEEN_BRICKS

/-- offset_x in setup. -/
def offset_x : ℚ := left_edge_of_bricks + BRICK_SIZE.x / 2

/-- offset_y in setup. -/
def offset_y : ℚ := bottom_edge_of_bricks + BRICK_SIZE.y / 2

/-- The brick-spawning double loop of setup. Its bounds are the literal
ranges `0..0` and `0..0` of the source, so no brick is ever spawned; the body
reproduces the brick_position formula and components (Brick + Collider). -/
def brick_colliders : List Collider :=
  (List.range 0).flatMap fun row =>
    (List.range 0).map fun column =>
      ⟨9 + row * 0 + column,
       ⟨offset_x + (column : ℚ) * (BRICK_SIZE.x + GAP_BETWEEN_BRICKS),
        offset_y + (row : ℚ) * (BRICK_SIZE.y + GAP_BETWEEN_BRICKS)⟩,
       BRICK_SIZE, ColliderKind.Brick⟩

/-- All colliders spawned by setup, in spawn order: the paddle, then the
uncommented wall bundles (Bottom, Locate1..Locate7), then the (empty) brick
grid. The Left, Right and Top wall spawns are commented out in the source. -/
def setup_colliders : List Collider :=
  [paddle_collider,
   wall_bundle 1 WallLocation.Bottom,
   wall_bundle 2 WallLocation.Locate1,
   wall_bundle 3 WallLocation.Locate2,
   wall_bundle 4 WallLocation.Locate3,
   wall_bundle 5 WallLocation.Locate4,
   wall_bundle 6 WallLocation.Locate5,
   wall_bundle 7 WallLocation.Locate6,
   wall_bundle 8 WallLocation.Locate7] ++ brick_colliders

/-- The actor as spawned by setup: MARIO_STARTING_POSITION, scale MARIO_SIZE,
Velocity = INITIAL_BALL_DIRECTION.normalize() * MARIO_XSPEED = (-1, 0) * 300,
IsJumping false. -/
def initial_actor : MarioState :=
  ⟨MARIO_STARTING_POSITION, MARIO_SIZE, ⟨-MARIO_XSPEED, 0⟩, false⟩

/-- The world right after setup: actor, colliders, score 0. -/
def initial_world : World := ⟨initial_actor, setup_colliders, 0, 0⟩

/-- A world holding only an actor at rest at position p, flag down, and no
colliders (used for the end-to-end jump scenario). -/
def rest_world_at (p : Vec2) : World :=
  ⟨⟨p, MARIO_SIZE, ⟨0, 0⟩, false⟩, [], 0, 0⟩

/-- Keyboard state with only the jump key (Up) held. -/
def jump_input : Input := ⟨true, false, false, false⟩

/-- The horizontal wraparound step of apply_velocity as a standalone function:
the two sequential boundary checks of the source, applied to the already
integrated x position. -/
def wrap_x (x : ℚ) : ℚ :=
  let x2 := if x > BLOCK_SIZE * 16 then BLOCK_SIZE * (-16) else x
  if x2 < BLOCK_SIZE * (-16) then BLOCK_SIZE * 16 else x2

/-- The wall-reflection block touches only velocity and the jump flag. -/
theorem resolve_wall_collision_pos (col : Collision) (m : MarioState) :
    (resolve_wall_collision col m).pos = m.pos ∧
    (resolve_wall_collision col m).size = m.size := by
  cases col <;> simp only [resolve_wall_collision] <;> split_ifs <;> simp

/-- Processing one collider never moves or resizes the actor. -/
theorem process_collider_pos (m : MarioState) (s e : ℕ) (c : Collider) :
    (process_collider m s e c).actor.pos = m.pos ∧
    (process_collider m s e c).actor.size = m.size := by
  unfold process_collider
  cases hco : collide m.pos m.size c.pos c.size with
  | none => simp
  | some col =>
    cases c.kind with
    | Brick => simp
    | Wall => simpa using resolve_wall_collision_pos col m

/-- The collision pass never moves or resizes the actor. -/
theorem collision_pass_pos (cs : List Collider) (m : MarioState) (s e : ℕ) :
    (collision_pass m s e cs).actor.pos = m.pos ∧
    (collision_pass m s e cs).actor.size = m.size := by
  induction cs generalizing m s e with
  | nil => simp [collision_pass]
  | cons c rest ih =>
    simp only [collision_pass]
    refine ⟨?_, ?_⟩
    · rw [(ih _ _ _).1, (process_collider_pos m s e c).1]
    · rw [(ih _ _ _).2, (process_collider_pos m s e c).2]

/-- The surviving colliders of a pass form a sublist of the input registry:
the collision system never spawns, duplicates or reorders colliders. -/
theorem collision_pass_kept_sublist (cs : List Collider) (m : MarioState)
    (s e : ℕ) : List.Sublist (collision_pass m s e cs).kept cs := by
  induction cs generalizing m s e with
  | nil => simp [collision_pass]
  | cons c rest ih =>
    simp only [collision_pass]
    by_cases hk : (process_collider m s e c).keep
    · simpa [hk] using List.Sublist.cons₂ c (ih _ _ _)
    · simpa [hk] using List.Sublist.cons c (ih _ _ _)

/-- A collider surviving a pass was in the input registry, and it is not a
brick the actor overlapped (such bricks are always despawned). -/
theorem collision_pass_mem_kept (cs : List Collider) (m : MarioState)
    (s e : ℕ) (c : Collider) (hm : c ∈ (collision_pass m s e cs).kept) :
    c ∈ cs ∧
    ¬(c.kind = ColliderKind.Brick ∧
      collide m.pos m.size c.pos c.size ≠ none) := by
  induction cs generalizing m s e with
  | nil => simp [collision_pass] at hm
  | cons c0 rest ih =>
    simp only [collision_pass] at hm
    have hpos := process_collider_pos m s e c0
    by_cases hk : (process_collider m s e c0).keep
    · rw [if_pos hk] at hm
      rcases List.mem_cons.mp hm with hec | hrest
      · subst hec
        refine ⟨List.mem_cons_self _ _, ?_⟩
        rintro ⟨hb, ho⟩
        cases hco : collide m.pos m.size c.pos c.size with
        | none => exact ho hco
        | some col =>
          have : (process_collider m s e c).keep = false := by
            unfold process_collider
            rw [hco, hb]
          rw [this] at hk
          exact Bool.false_ne_true hk
      · have h2 := ih _ _ _ hrest
        rw [hpos.1, hpos.2] at h2
        exact ⟨List.mem_cons_of_mem _ h2.1, h2.2⟩
    · rw [if_neg hk] at hm
      have h2 := ih _ _ _ hm
      rw [hpos.1, hpos.2] at h2
      exact ⟨List.mem_cons_of_mem _ h2.1, h2.2⟩

/-- A collider alive after a tick was alive before the tick. -/
theorem tick_colliders_mem (inp : Input) (w : World) (c : Collider)
    (hm : c ∈ (tick inp w).colliders) : c ∈ w.colliders := by
  simp only [tick, check_for_collisions] at hm
  exact (collision_pass_mem_kept _ _ _ _ _ hm).1

/-- A collider alive after any sequence of ticks was alive initially. -/
theorem run_ticks_colliders_mem (inps : List Input) (w : World) (c : Collider)
    (hm : c ∈ (run_ticks inps w).colliders) : c ∈ w.colliders := by
  induction inps generalizing w with
  | nil => exact hm
  | cons i rest ih =>
    exact tick_colliders_mem i w c (ih (tick i w) hm)

/-- Claim C3: for every integrated actor and every tick, the integrator first
adds velocity.x * Δt to position.x and velocity.y * Δt to position.y, then
applies the horizontal wraparound test to the already-updated x position, then
subtracts the gravity constant (50, a flat per-tick decrement not multiplied
by Δt) from velocity.y; the gravity decrement happens after the position
update (the y displacement uses the pre-gravity velocity.y). -/
theorem c3_integrator_order (m : MarioState) :
    apply_velocity m =
      { m with
        pos := ⟨wrap_x (m.pos.x + m.vel.x * TIME_STEP),
                m.pos.y + m.vel.y * TIME_STEP⟩,
        vel := ⟨m.vel.x, m.vel.y - GRAVITY⟩ } ∧
    GRAVITY = 50 :=
  ⟨rfl, rfl⟩

/-- Claim C5: if the jump key is held and is_jumping is false, velocity.y is
set to exactly the jump constant (800) and is_jumping is set to true in the
same tick; if the key is held while is_jumping is true, or the key is not
held, the jump logic changes neither velocity.y nor is_jumping. -/
theorem c5_jump_impulse (inp : Input) (m : MarioState) :
    (move_mario_input inp m).vel.y =
      (if inp.up = true ∧ m.isjumping = false then JUMP_SPEED else m.vel.y) ∧
    (move_mario_input inp m).isjumping =
      (if inp.up = true ∧ m.isjumping = false then true else m.isjumping) ∧
    JUMP_SPEED = 800 := by
  refine ⟨?_, ?_, rfl⟩ <;>
    cases hu : inp.up <;> cases hj : m.isjumping <;>
      simp [move_mario_input, hu, hj] <;> split_ifs <;> simp

/-- Claim C7: in the integrator's wraparound step, an actor whose
post-integration x position strictly exceeds +16·BLOCK_SIZE (= 320) has x set
to exactly −16·BLOCK_SIZE, an actor whose post-integration x is strictly below
−16·BLOCK_SIZE has x set to exactly +16·BLOCK_SIZE, and a teleported actor is
not re-teleported by the other branch within the same tick (the result is
exactly the opposite boundary). -/
theorem c7_wraparound (m : MarioState) :
    (m.pos.x + m.vel.x * TIME_STEP > BLOCK_SIZE * 16 →
      (apply_velocity m).pos.x = BLOCK_SIZE * (-16)) ∧
    (m.pos.x + m.vel.x * TIME_STEP < BLOCK_SIZE * (-16) →
      (apply_velocity m).pos.x = BLOCK_SIZE * 16) ∧
    BLOCK_SIZE * 16 = 320 := by
  refine ⟨?_, ?_, by norm_num [BLOCK_SIZE]⟩
  · intro h
    simp only [apply_velocity]
    rw [if_pos h, if_neg (by norm_num [BLOCK_SIZE])]
  · intro h
    have hng : ¬(m.pos.x + m.vel.x * TIME_STEP > BLOCK_SIZE * 16) := by
      simp only [BLOCK_SIZE] at h ⊢
      push_neg
      linarith
    simp only [apply_velocity]
    rw [if_neg hng, if_pos h]

/-- Witness for C7 at a concrete input: an actor at x = 400 with zero
velocity is beyond the +320 boundary and is teleported to exactly −320. -/
theorem c7_wraparound_witness :
    ((⟨⟨400, 0⟩, MARIO_SIZE, ⟨0, 0⟩, false⟩ : MarioState).pos.x +
        (⟨⟨400, 0⟩, MARIO_SIZE, ⟨0, 0⟩, false⟩ : MarioState).vel.x * TIME_STEP >
      BLOCK_SIZE * 16) ∧
    (apply_velocity ⟨⟨400, 0⟩, MARIO_SIZE, ⟨0, 0⟩, false⟩).pos.x =
      BLOCK_SIZE * (-16) :=
  ⟨by norm_num [TIME_STEP, BLOCK_SIZE],
   (c7_wraparound ⟨⟨400, 0⟩, MARIO_SIZE, ⟨0, 0⟩, false⟩).1
     (by norm_num [TIME_STEP, BLOCK_SIZE])⟩

/-- Claim C8: each tick the horizontal input mapping sets velocity.x to
exactly −300 when the left key is held (left has priority when both are
held), +300 when the right key is held and left is not, and 0 when neither
is held. -/
theorem c8_horizontal_input (inp : Input) (m : MarioState) :
    (move_mario_input inp m).vel.x =
      (if inp.left = true then -MARIO_XSPEED
       else if inp.right = true then MARIO_XSPEED
       else 0) ∧
    MARIO_XSPEED = 300 := by
  refine ⟨?_, rfl⟩
  cases hl : inp.left <;> cases hr : inp.right <;> cases hu : inp.up <;>
    cases hj : m.isjumping <;> simp [move_mario_input, hl, hr, hu, hj]

/-- Counterexample to claim C4 as stated: starting at rest with the jump key
held and no colliders, velocity.y is 750 (not 800) after the first full tick,
because apply_velocity runs after move_mario_input within the same tick and
subtracts GRAVITY; after the second full tick it is 700 (not 750). -/
theorem c4_counterexample :
    (tick jump_input (rest_world_at ⟨0, 0⟩)).actor.vel.y = 750 ∧
    ¬(tick jump_input (rest_world_at ⟨0, 0⟩)).actor.vel.y = 800 ∧
    (tick jump_input (tick jump_input (rest_world_at ⟨0, 0⟩))).actor.vel.y
      = 700 ∧
    ¬(tick jump_input (tick jump_input (rest_world_at ⟨0, 0⟩))).actor.vel.y
      = 750 := by
  norm_num [tick, rest_world_at, jump_input, move_mario_input, apply_velocity,
    check_for_collisions, collision_pass, JUMP_SPEED, GRAVITY, MARIO_XSPEED,
    TIME_STEP, BLOCK_SIZE]

/-- Claim C4 as amended: starting from an actor at rest (velocity (0,0)) with
is_jumping = false and no colliders, one full tick with the jump key held
sets velocity.y to JUMP_SPEED = 800 in the input system and then the same
tick's integrator subtracts GRAVITY = 50, leaving velocity.y = 750 and
is_jumping = true; during a second full tick with the key still held the jump
logic has no effect and gravity subtracts another 50, giving
velocity.y = 700. -/
theorem c4_amended_two_tick_jump (p : Vec2) :
    (tick jump_input (rest_world_at p)).actor.vel.y = 750 ∧
    (tick jump_input (rest_world_at p)).actor.isjumping = true ∧
    (tick jump_input (tick jump_input (rest_world_at p))).actor.vel.y = 700 ∧
    (tick jump_input (tick jump_input (rest_world_at p))).actor.isjumping
      = true := by
  norm_num [tick, rest_world_at, jump_input, move_mario_input, apply_velocity,
    check_for_collisions, collision_pass, JUMP_SPEED, GRAVITY, MARIO_XSPEED,
    TIME_STEP, BLOCK_SIZE]

/-- Claim C1: when the actor overlaps a wall collider, the vertical
resolution is: on side Top, if velocity.y < 0 then velocity.y is set to 0 and
is_jumping is set to false; on side Bottom, if velocity.y > 0 then velocity.y
is set to 0 and is_jumping is left unchanged; is_jumping is never reset on
the Bottom branch — any change of the flag happens only on the Top side with
velocity.y < 0 (the reflect_y path). -/
theorem c1_vertical_wall_resolution (m : MarioState) (s e : ℕ) (c : Collider)
    (hw : c.kind = ColliderKind.Wall) :
    (collide m.pos m.size c.pos c.size = some Collision.Top →
      (process_collider m s e c).actor.vel.y =
        (if m.vel.y < 0 then 0 else m.vel.y) ∧
      (process_collider m s e c).actor.isjumping =
        (if m.vel.y < 0 then false else m.isjumping)) ∧
    (collide m.pos m.size c.pos c.size = some Collision.Bottom →
      (process_collider m s e c).actor.vel.y =
        (if m.vel.y > 0 then 0 else m.vel.y) ∧
      (process_collider m s e c).actor.isjumping = m.isjumping) ∧
    (∀ col, collide m.pos m.size c.pos c.size = some col →
      (process_collider m s e c).actor.isjumping ≠ m.isjumping →
      col = Collision.Top ∧ m.vel.y < 0) := by
  refine ⟨?_, ?_, ?_⟩
  · intro h
    unfold process_collider
    rw [h, hw]
    by_cases hv : m.vel.y < 0 <;> simp [resolve_wall_collision, hv]
  · intro h
    unfold process_collider
    rw [h, hw]
    by_cases hv : m.vel.y > 0 <;> simp [resolve_wall_collision, hv]
  · intro col h hneq
    unfold process_collider at hneq
    rw [h, hw] at hneq
    cases col with
    | Top =>
      refine ⟨rfl, ?_⟩
      by_contra hv
      simp [resolve_wall_collision, hv] at hneq
    | Left =>
      by_cases hv : m.vel.x > 0 <;> simp [resolve_wall_collision, hv] at hneq
    | Right =>
      by_cases hv : m.vel.x < 0 <;> simp [resolve_wall_collision, hv] at hneq
    | Bottom =>
      by_cases hv : m.vel.y > 0 <;> simp [resolve_wall_collision, hv] at hneq
    | Inside =>
      simp [resolve_wall_collision] at hneq

/-- Witness for C1 at a concrete input: an actor of size (40,60) centred at
(0,35), falling with velocity (0,−10), overlaps the wall of size (100,20)
centred at the origin on side Top; processing it zeroes velocity.y and
clears is_jumping. -/
theorem c1_vertical_wall_resolution_witness :
    (process_collider ⟨⟨0, 35⟩, ⟨40, 60⟩, ⟨0, -10⟩, true⟩ 0 0
        ⟨20, ⟨0, 0⟩, ⟨100, 20⟩, ColliderKind.Wall⟩).actor.vel.y = 0 ∧
    (process_collider ⟨⟨0, 35⟩, ⟨40, 60⟩, ⟨0, -10⟩, true⟩ 0 0
        ⟨20, ⟨0, 0⟩, ⟨100, 20⟩, ColliderKind.Wall⟩).actor.isjumping
      = false := by
  have h := (c1_vertical_wall_resolution ⟨⟨0, 35⟩, ⟨40, 60⟩, ⟨0, -10⟩, true⟩
    0 0 ⟨20, ⟨0, 0⟩, ⟨100, 20⟩, ColliderKind.Wall⟩ rfl).1
    (by norm_num [collide, absLtDepth])
  refine ⟨?_, ?_⟩
  · rw [h.1]
    norm_num
  · rw [h.2]
    norm_num

/-- Claim C6: on a wall overlap classified Left, velocity.x is zeroed exactly
when velocity.x > 0 and is otherwise unchanged; symmetrically on side Right
it is zeroed exactly when velocity.x < 0; in both cases velocity.y is
unchanged by the horizontal reflection. -/
theorem c6_horizontal_wall_resolution (m : MarioState) (s e : ℕ)
    (c : Collider) (hw : c.kind = ColliderKind.Wall) :
    (collide m.pos m.size c.pos c.size = some Collision.Left →
      (process_collider m s e c).actor.vel.x =
        (if m.vel.x > 0 then 0 else m.vel.x) ∧
      (process_collider m s e c).actor.vel.y = m.vel.y) ∧
    (collide m.pos m.size c.pos c.size = some Collision.Right →
      (process_collider m s e c).actor.vel.x =
        (if m.vel.x < 0 then 0 else m.vel.x) ∧
      (process_collider m s e c).actor.vel.y = m.vel.y) := by
  refine ⟨?_, ?_⟩
  · intro h
    unfold process_collider
    rw [h, hw]
    by_cases hv : m.vel.x > 0 <;> simp [resolve_wall_collision, hv]
  · intro h
    unfold process_collider
    rw [h, hw]
    by_cases hv : m.vel.x < 0 <;> simp [resolve_wall_collision, hv]

/-- Witness for C6 at a concrete input: an actor of size (40,60) centred at
(10,0) moving right with velocity (5,−7) overlaps the wall of size (100,200)
centred at (50,0) on side Left; processing it zeroes velocity.x and leaves
velocity.y at −7. -/
theorem c6_horizontal_wall_resolution_witness :
    (process_collider ⟨⟨10, 0⟩, ⟨40, 60⟩, ⟨5, -7⟩, false⟩ 0 0
        ⟨21, ⟨50, 0⟩, ⟨100, 200⟩, ColliderKind.Wall⟩).actor.vel.x = 0 ∧
    (process_collider ⟨⟨10, 0⟩, ⟨40, 60⟩, ⟨5, -7⟩, false⟩ 0 0
        ⟨21, ⟨50, 0⟩, ⟨100, 200⟩, ColliderKind.Wall⟩).actor.vel.y = -7 := by
  have h := (c6_horizontal_wall_resolution ⟨⟨10, 0⟩, ⟨40, 60⟩, ⟨5, -7⟩, false⟩
    0 0 ⟨21, ⟨50, 0⟩, ⟨100, 200⟩, ColliderKind.Wall⟩ rfl).1
    (by norm_num [collide, absLtDepth])
  refine ⟨?_, h.2⟩
  rw [h.1]
  norm_num

/-- Claim C2: a tick in which the actor overlaps a collider tagged Brick
increments the score by exactly 1 for that overlap, emits a collision event,
leaves the actor (both velocity components and is_jumping) unchanged by that
overlap, and despawns the collider; the brick is then absent from the
collider set on every subsequent tick. -/
theorem c2_brick_scoring (m : MarioState) (s e : ℕ) (c : Collider) (w : World)
    (hb : c.kind = ColliderKind.Brick) :
    (collide m.pos m.size c.pos c.size ≠ none →
      process_collider m s e c = ⟨m, s + 1, e + 1, false⟩) ∧
    (collide w.actor.pos w.actor.size c.pos c.size ≠ none →
      ∀ inps, c ∉ (run_ticks inps (check_for_collisions w)).colliders) := by
  constructor
  · intro ho
    unfold process_collider
    cases hco : collide m.pos m.size c.pos c.size with
    | none => exact absurd hco ho
    | some col => rw [hb]
  · intro ho inps hmem
    have h1 : c ∈ (check_for_collisions w).colliders :=
      run_ticks_colliders_mem inps _ c hmem
    simp only [check_for_collisions] at h1
    exact (collision_pass_mem_kept _ _ _ _ _ h1).2 ⟨hb, ho⟩

/-- Witness for C2 at a concrete input (the scenario of the spec): a brick of
size (10,10) at (100,100) overlapped by the actor at (100,100): processing it
bumps the score from 0 to 1, counts one event, keeps the actor unchanged and
drops the brick; the brick is absent from the collider set after the tick. -/
theorem c2_brick_scoring_witness :
    process_collider ⟨⟨100, 100⟩, ⟨40, 60⟩, ⟨0, 0⟩, false⟩ 0 0
        ⟨30, ⟨100, 100⟩, ⟨10, 10⟩, ColliderKind.Brick⟩ =
      ⟨⟨⟨100, 100⟩, ⟨40, 60⟩, ⟨0, 0⟩, false⟩, 1, 1, false⟩ ∧
    (⟨30, ⟨100, 100⟩, ⟨10, 10⟩, ColliderKind.Brick⟩ : Collider) ∉
      (run_ticks []
        (check_for_collisions
          ⟨⟨⟨100, 100⟩, ⟨40, 60⟩, ⟨0, 0⟩, false⟩,
           [⟨30, ⟨100, 100⟩, ⟨10, 10⟩, ColliderKind.Brick⟩], 0, 0⟩)).colliders := by
  have h := c2_brick_scoring ⟨⟨100, 100⟩, ⟨40, 60⟩, ⟨0, 0⟩, false⟩ 0 0
    ⟨30, ⟨100, 100⟩, ⟨10, 10⟩, ColliderKind.Brick⟩
    ⟨⟨⟨100, 100⟩, ⟨40, 60⟩, ⟨0, 0⟩, false⟩,
     [⟨30, ⟨100, 100⟩, ⟨10, 10⟩, ColliderKind.Brick⟩], 0, 0⟩ rfl
  exact ⟨h.1 (by norm_num [collide, absLtDepth]; simp),
         h.2 (by norm_num [collide, absLtDepth]; simp) []⟩

/-- Claim C9: setup spawns zero brick colliders (the brick grid loop is
empty in the current configuration), and since ticks never spawn colliders,
no collider tagged Brick exists in any reachable state. -/
theorem c9_no_bricks_reachable (inps : List Input) :
    (setup_colliders.all fun c => c.kind != ColliderKind.Brick) = true ∧
    ((run_ticks inps initial_world).colliders.all
      fun c => c.kind != ColliderKind.Brick) = true := by
  have hsetup : (setup_colliders.all
      fun c => c.kind != ColliderKind.Brick) = true := by
    simp [setup_colliders, brick_colliders, paddle_collider, wall_bundle]
  refine ⟨hsetup, ?_⟩
  rw [List.all_eq_true]
  intro c hc
  have h1 : c ∈ setup_colliders :=
    run_ticks_colliders_mem inps initial_world c hc
  exact List.all_eq_true.mp hsetup c h1

/-- Claim C10: for every world state, the collision system never modifies
the actor's position or size: it may change only velocity, the jump flag,
the score and the event count, and it only ever removes colliders (the
surviving registry is a sublist of the input registry), so the actor stays
exactly where the integrator put it, whatever the overlap sides (Inside
included). -/
theorem c10_collision_preserves_position (w : World) :
    (check_for_collisions w).actor.pos = w.actor.pos ∧
    (check_for_collisions w).actor.size = w.actor.size ∧
    List.Sublist (check_for_collisions w).colliders w.colliders := by
  refine ⟨?_, ?_, ?_⟩
  · simpa [check_for_collisions] using
      (collision_pass_pos w.colliders w.actor w.score 0).1
  · simpa [check_for_collisions] using
      (collision_pass_pos w.colliders w.actor w.score 0).2
  · simpa [check_for_collisions] using
      collision_pass_kept_sublist w.colliders w.actor w.score 0
